import Mathlib

/-!
Verification development for the `sql_tool` repository.

This file gives a shallow embedding of the algorithmic core of the repository —
the query-builder SQL synthesis, the PostgreSQL identifier rewriting layer, the
background-task ledger, the scheduler registration bookkeeping, the
scheduled-upload approval workflow and the URL download gate — and proves
theorems settling the specification claims about them.

Conventions of the embedding:
* Python strings are modelled as Lean `String` / `List Char`; regex and string
  primitives (`strip`, `split`, `in`, `lower`) are reimplemented for the ASCII
  fragment actually exercised by the code.
* `time.time()` timestamps (Python floats) are modelled as `Nat` instants
  passed explicitly.
* Ambient session state (`st.session_state.username` / `.role`) is passed as
  explicit arguments.
* Database tables are modelled as in-memory lists of rows; `INSERT` appends,
  `DELETE ... WHERE id = ?` filters, `UPDATE` maps.
-/

namespace SqlTool

/-! ### Python-style string primitives (ASCII model) -/

/-- ASCII whitespace, as recognised by Python `str.strip` and by regex `\s`
on ASCII input. -/
def isPyWs (c : Char) : Bool :=
  c = ' ' || c = '\t' || c = '\n' || c = '\r' || c = '\x0b' || c = '\x0c'

/-- Python `str.strip()` on a list of characters. -/
def pyStripL (s : List Char) : List Char :=
  ((s.dropWhile isPyWs).reverse.dropWhile isPyWs).reverse

/-- Python `str.strip()`. -/
def pyStrip (s : String) : String := ⟨pyStripL s.data⟩

/-- Does `s` start with `pat` (character-exact)? -/
def startsWithL : List Char → List Char → Bool
  | _, [] => true
  | [], _ :: _ => false
  | c :: s, p :: ps => c = p && startsWithL s ps

/-- Python substring containment `pat in s`, on lists of characters. -/
def pyContainsL (s pat : List Char) : Bool :=
  match s with
  | [] => startsWithL [] pat
  | c :: s' => startsWithL (c :: s') pat || pyContainsL s' pat

/-- Python substring containment `sub in hay`. -/
def pyContains (hay sub : String) : Bool := pyContainsL hay.data sub.data

/-- Python `str.lower()` on ASCII characters. -/
def pyLowerL (s : List Char) : List Char := s.map Char.toLower

/-- Python `str.lower()`. -/
def pyLower (s : String) : String := ⟨pyLowerL s.data⟩

/-- Leftmost occurrence of a non-empty separator: returns the part before it
and the part after it, or `none` when the separator does not occur. -/
def splitOnceL (sep : List Char) (s : List Char) : Option (List Char × List Char) :=
  match s with
  | [] => none
  | c :: s' =>
    if startsWithL (c :: s') sep && !sep.isEmpty then
      some ([], (c :: s').drop sep.length)
    else
      (splitOnceL sep s').map (fun p => (c :: p.1, p.2))

/-- Worker for `pySplit`, with fuel bounding the number of separator hits. -/
def pySplitGo (sep : List Char) : Nat → List Char → List (List Char)
  | 0, s => [s]
  | fuel + 1, s =>
    match splitOnceL sep s with
    | none => [s]
    | some (pre, post) => pre :: pySplitGo sep fuel post

/-- Python `s.split(sep)` for a non-empty separator. -/
def pySplit (s sep : String) : List String :=
  (pySplitGo sep.data s.data.length s.data).map (fun l => ⟨l⟩)

/-! ### Query builder: identifier quoting and WHERE-condition synthesis
(src/query_builder.py `_generate_sql`) -/

/-- src/query_builder.py line 300: the quote character used by `_generate_sql`,
chosen as `'"' if db_type == 'postgresql' else '`'`.  Note that every
non-PostgreSQL dialect — including SQLite — gets the backtick. -/
def quote_char (db_type : String) : String :=
  if db_type = "postgresql" then "\x22" else "\x60"

/-- Wrapping an identifier in the query builder's quote character (the
`f"{quote_char}{name}{quote_char}"` pattern of `_generate_sql`). -/
def quote_identifier_qb (db_type name : String) : String :=
  quote_char db_type ++ name ++ quote_char db_type

/-- src/db_manager.py `store_data_in_db` (lines 225-259): the identifier quote
used when building the CREATE/DELETE/INSERT statements, by database type;
`none` for an unknown type (the source then hits an unbound local and fails). -/
def store_quote_char (db_type : String) : Option String :=
  if pyLower db_type = "mysql" then some "\x60"
  else if pyLower db_type = "postgresql" then some "\x22"
  else if pyLower db_type = "sqlite" then some "\x22"
  else none

/-- Wrapping an identifier as `store_data_in_db` does for its dialect. -/
def store_quote_identifier (db_type name : String) : Option String :=
  (store_quote_char db_type).map (fun q => q ++ name ++ q)

/-- Modelled from the spec: `unquote` strips the single leading and trailing
quote character from a quoted identifier.  (The source has no inverse
function; the spec's round-trip property defines it this way.) -/
def unquote (s : String) : String := ⟨(s.data.drop 1).dropLast⟩

/-- src/query_builder.py `_generate_sql` lines 352-361: the `BETWEEN` arm of
WHERE-condition formatting.  The value is split on the literal `" AND "`;
exactly two parts produce a BETWEEN with each part stripped and quoted, any
other arity degrades to an `=` comparison on the raw value. -/
def format_between_condition (column value : String) : String :=
  match pySplit value " AND " with
  | [v0, v1] =>
    column ++ " BETWEEN \x27" ++ pyStrip v0 ++ "\x27 AND \x27" ++ pyStrip v1 ++ "\x27"
  | _ => column ++ " = \x27" ++ value ++ "\x27"

/-! ### URL download gate (src/scheduler_manager.py `download_from_url`) -/

/-- src/scheduler_manager.py lines 230: the allowed-domain list. -/
def allowed_domains : List String :=
  ["github.com", "raw.githubusercontent.com", "data.gov", "data.world"]

/-- The gate `any(domain in url for domain in allowed_domains)`: plain substring
containment of any allowed domain anywhere in the URL. -/
def url_domain_allowed (url : String) : Bool :=
  allowed_domains.any (fun d => pyContains url d)

/-- Result of `download_from_url` with everything after the domain gate
abstracted: the claim under verification concerns only the gate, so a passing
URL is mapped to an opaque `proceeds` marker standing for the download
attempt. -/
inductive DownloadResult where
  | proceeds (url : String)
deriving DecidableEq

/-- src/scheduler_manager.py `download_from_url` (lines 227-274): a URL failing
the domain gate returns `None` before any download is attempted. -/
def download_from_url (url : String) : Option DownloadResult :=
  if url_domain_allowed url then some (.proceeds url) else none

/-! ### Task ledger (src/background_processor.py) -/

/-- A row of the `background_tasks` table (`setup_background_tables`). -/
structure TaskRow where
  id : Nat
  username : String
  task_type : String
  query : String
  status : String
  created_at : Nat
  started_at : Option Nat
  completed_at : Option Nat
  result_path : Option String
  error_message : Option String
deriving DecidableEq

/-- `new.getD old` written out: a field is overwritten exactly when the
corresponding keyword argument is not `None`. -/
def setIfSome {α : Type} (new old : Option α) : Option α :=
  match new with
  | some v => some v
  | none => old

/-- src/background_processor.py `_update_task_status` (lines 364-402): builds
`UPDATE background_tasks SET status = ?, ... WHERE id = ?` from whichever
keyword arguments are not `None`.  The status is always overwritten with the
requested value; there is no check of the current status and no
`InvalidTransitionError` anywhere in the repository. -/
def update_task_status (row : TaskRow) (status : String)
    (started_at completed_at : Option Nat)
    (result_path error_message : Option String) : TaskRow :=
  { row with
    status := status
    started_at := setIfSome started_at row.started_at
    completed_at := setIfSome completed_at row.completed_at
    result_path := setIfSome result_path row.result_path
    error_message := setIfSome error_message row.error_message }

/-- Outcome of the worker body of `_execute_background_query`: the connection
attempt fails, the execution raises, or a list of result rows is fetched. -/
inductive QueryOutcome where
  | connect_failed
  | raised (msg : String)
  | success (rows : List (List String))
deriving DecidableEq

/-- src/background_processor.py `_execute_background_query` (lines 245-362),
restricted to its effect on the task row: mark running (with `started_at`),
then on success with a non-empty result set mark completed with
`result_path = "results/task_{id}_results.csv"`; on success with an empty
result set mark completed without a result path; on a failed connection mark
failed (no `completed_at` is passed on that branch); on an exception mark
failed with the message. -/
def execute_background_query (row : TaskRow) (outcome : QueryOutcome)
    (t_start t_end : Nat) : TaskRow :=
  let running := update_task_status row "running" (some t_start) none none none
  match outcome with
  | .connect_failed =>
    update_task_status running "failed" none none none
      (some "Failed to connect to database")
  | .raised msg =>
    update_task_status running "failed" none (some t_end) none (some msg)
  | .success rows =>
    if rows.isEmpty then
      update_task_status running "completed" none (some t_end) none none
    else
      update_task_status running "completed" none (some t_end)
        (some ("results/task_" ++ toString row.id ++ "_results.csv")) none

/-! ### Scheduler registration (src/scheduler_manager.py) -/

/-- APScheduler trigger as computed by `register_task` (lines 48-66): a one-shot
date trigger for `once`, otherwise an interval trigger anchored at
`next_run`. -/
inductive Trigger where
  | date (run_date : String)
  | interval (seconds : Nat) (start_date : String)
deriving DecidableEq

/-- The interval in seconds per frequency (lines 53-63), with the daily
default for unknown frequencies. -/
def interval_seconds (frequency : String) : Nat :=
  if pyLower frequency = "hourly" then 60 * 60
  else if pyLower frequency = "daily" then 24 * 60 * 60
  else if pyLower frequency = "weekly" then 7 * 24 * 60 * 60
  else if pyLower frequency = "monthly" then 30 * 24 * 60 * 60
  else 24 * 60 * 60

/-- The payload a scheduler job carries. -/
structure Job where
  source_type : String
  source_path : String
  table_name : String
  credentials : Option String
  trigger : Trigger
deriving DecidableEq

/-- The process-wide APScheduler job registry: job id → job. -/
abbrev SchedulerRegistry := List (String × Job)

/-- APScheduler `add_job(..., id=job_id, replace_existing=True)`: replaces the
job stored under the same id, otherwise appends a new one. -/
def add_job (reg : SchedulerRegistry) (id : String) (job : Job) : SchedulerRegistry :=
  if reg.any (fun p => decide (p.1 = id)) then
    reg.map (fun p => if p.1 = id then (id, job) else p)
  else
    reg ++ [(id, job)]

/-- src/scheduler_manager.py `register_task` (line 45): the job id embeds
`int(time.time())`, the wall-clock second of the call. -/
def register_task_job_id (source_type table_name : String) (now : Nat) : String :=
  source_type ++ "_" ++ table_name ++ "_" ++ toString now

/-- src/scheduler_manager.py `register_task` (lines 39-76): computes the
trigger and schedules the job under the timestamped id. -/
def register_task (reg : SchedulerRegistry)
    (source_type source_path table_name frequency next_run : String)
    (credentials : Option String) (now : Nat) : SchedulerRegistry × String :=
  let job_id := register_task_job_id source_type table_name now
  let trigger :=
    if pyLower frequency = "once" then Trigger.date next_run
    else Trigger.interval (interval_seconds frequency) next_run
  (add_job reg job_id
    { source_type := source_type, source_path := source_path,
      table_name := table_name, credentials := credentials, trigger := trigger },
    job_id)

/-- `scheduler.remove_job(job_id)` wrapped in `try/except: pass`
(delete_scheduled_upload, lines 560-566): removes the job if present,
silently a no-op otherwise. -/
def remove_job_tolerant (reg : SchedulerRegistry) (id : String) : SchedulerRegistry :=
  reg.filter (fun p => decide (p.1 ≠ id))

/-- src/scheduler_manager.py `delete_scheduled_upload` (lines 541-572),
scheduler side: the job id it attempts to remove is
`f"{source_type}_{table_name}_{upload_id}"` — built from the database ROW id,
not from the registration timestamp.  (The database row deletion itself is
modelled with the upload state below.) -/
def delete_job_id (source_type table_name : String) (upload_id : Nat) : String :=
  source_type ++ "_" ++ table_name ++ "_" ++ toString upload_id

/-- The scheduler-registry effect of `delete_scheduled_upload`. -/
def delete_scheduled_upload_sched (reg : SchedulerRegistry)
    (source_type table_name : String) (upload_id : Nat) : SchedulerRegistry :=
  remove_job_tolerant reg (delete_job_id source_type table_name upload_id)

/-! ### Scheduled-upload approval workflow (src/upload_manager.py) -/

/-- A row of the `scheduled_uploads` table (`setup_upload_tables`).  The table
declares `is_active BOOLEAN DEFAULT 1` and `is_approved BOOLEAN DEFAULT 1`;
inserts that omit a column get the default. -/
structure ScheduledUploadRow where
  id : Nat
  username : String
  source_type : String
  source_path : String
  table_name : String
  frequency : String
  next_run : String
  credentials : String
  is_active : Bool
  is_approved : Bool
deriving DecidableEq

/-- A row of the `notifications` table as written by
`NotificationManager.add_notification` (src/notification_manager.py lines
45-70): type, message, timestamp and target username are stored; the row is
appended unconditionally. -/
structure Notification where
  ntype : String
  message : String
  timestamp : Nat
  username : String
deriving DecidableEq

/-- The persistent state touched by the approval workflow: the
`scheduled_uploads` table, the `notifications` table, and the next
AUTOINCREMENT id. -/
structure UploadState where
  rows : List ScheduledUploadRow
  notifications : List Notification
  next_id : Nat
deriving DecidableEq

/-- The empty database (AUTOINCREMENT starts at 1). -/
def empty_upload_state : UploadState := { rows := [], notifications := [], next_id := 1 }

/-- `NotificationManager.add_notification`: append one notification row. -/
def add_notification (s : UploadState) (n : Notification) : UploadState :=
  { s with notifications := s.notifications ++ [n] }

/-- src/upload_manager.py `create_scheduled_upload` (lines 472-531).  An admin
inserts directly with `is_approved = 1` (and `is_active` left to its default
`1`).  A non-admin first checks for a pending request with the same
`(username, table_name)` and `is_approved = 0`; if one exists the call is
rejected and nothing is written, otherwise a row with
`is_approved = 0, is_active = 0` is inserted and the admins are notified.
The requesting principal's role and username are the ambient session values
in the source, made explicit arguments here; `now` is the notification
timestamp.  (The admin branch additionally registers the scheduler job,
modelled separately by `register_task`.) -/
def create_scheduled_upload (s : UploadState) (role username : String)
    (source_type source_path table_name frequency next_run credentials : String)
    (now : Nat) : UploadState × Bool × String :=
  if role = "admin" then
    let row : ScheduledUploadRow :=
      { id := s.next_id, username := username, source_type := source_type,
        source_path := source_path, table_name := table_name,
        frequency := frequency, next_run := next_run, credentials := credentials,
        is_active := true, is_approved := true }
    ({ s with rows := s.rows ++ [row], next_id := s.next_id + 1 },
      true, "Scheduled upload created successfully")
  else if s.rows.any (fun r =>
      decide (r.username = username ∧ r.table_name = table_name ∧ r.is_approved = false)) then
    (s, false,
      "You already have a pending request for this table. Please wait for admin approval.")
  else
    let row : ScheduledUploadRow :=
      { id := s.next_id, username := username, source_type := source_type,
        source_path := source_path, table_name := table_name,
        frequency := frequency, next_run := next_run, credentials := credentials,
        is_active := false, is_approved := false }
    let s1 : UploadState := { s with rows := s.rows ++ [row], next_id := s.next_id + 1 }
    let s2 := add_notification s1
      { ntype := "approval_request",
        message := "User " ++ username ++ " requested approval for scheduled upload of table "
          ++ table_name,
        timestamp := now, username := "admin" }
    (s2, true, "Your scheduled upload request has been submitted for admin approval")

/-- src/upload_manager.py `decline_upload_request` (lines 684-730): admin-only;
looks the request up by id, deletes the row, and notifies the requesting user
with a message containing "declined" and, when a non-empty reason was given,
`": {reason}"` appended. -/
def decline_upload_request (s : UploadState) (role : String) (request_id : Nat)
    (reason : String) (now : Nat) : UploadState × Bool × String :=
  if role ≠ "admin" then
    (s, false, "You don't have permission to decline upload requests")
  else
    match s.rows.find? (fun r => decide (r.id = request_id)) with
    | none => (s, false, "Request not found")
    | some r =>
      let s1 : UploadState :=
        { s with rows := s.rows.filter (fun r' => decide (r'.id ≠ request_id)) }
      let decline_message :=
        ("Your scheduled upload request for table " ++ r.table_name ++ " has been declined")
          ++ (if reason ≠ "" then ": " ++ reason else "")
      let s2 := add_notification s1
        { ntype := "approval_declined", message := decline_message,
          timestamp := now, username := r.username }
      (s2, true, "Request declined. User " ++ r.username ++ " has been notified.")

/-! ### Identifier Safety Layer
(src/query_manager.py `execute_and_display_query`, lines 163-281)

The PostgreSQL branch of `execute_and_display_query` rewrites bare table and
column identifiers in the raw SQL text into double-quoted form using a fixed
set of regular expressions.  The embedding below implements those regexes
directly (each pattern is fixed, so each gets a dedicated scanner with
Python `re` semantics: leftmost non-overlapping matching, greedy/lazy
quantifiers with backtracking, IGNORECASE where the source passes it, `$`
matching at the end or before a trailing final newline).  Two caveats are
inherited from the source and noted where relevant: the iteration order of
the Python set `potential_tables` is unspecified (the embedding fixes
first-occurrence order, which coincides with CPython whenever at most one
candidate table exists, as in every concrete input used by the theorems
below), and `re.sub` replacement strings are inserted literally (faithful
for rebuilt clauses containing no backslash, which holds for all inputs used
below). -/

/-- Word characters (regex `\w` on ASCII input). -/
def isWordChar (c : Char) : Bool := c.isAlpha || c.isDigit || c = '_'

/-- Characters of the class `[a-zA-Z0-9_\.]` used to capture table names. -/
def isIdentDotChar (c : Char) : Bool := isWordChar c || c = '.'

/-- Caseless literal-prefix match (regex literal under IGNORECASE); returns
the rest after the pattern. -/
def stripPrefixCaseless : List Char → List Char → Option (List Char)
  | [], s => some s
  | _ :: _, [] => none
  | p :: ps, c :: cs =>
    if p.toLower = c.toLower then stripPrefixCaseless ps cs else none

/-- Exact literal-prefix match; returns the rest after the pattern. -/
def stripPrefixExact : List Char → List Char → Option (List Char)
  | [], s => some s
  | _ :: _, [] => none
  | p :: ps, c :: cs => if p = c then stripPrefixExact ps cs else none

/-- Caseless substring containment: `pat in s.upper()` for an uppercase ASCII
`pat`. -/
def pyContainsCaselessL (s pat : List Char) : Bool :=
  match s with
  | [] => (stripPrefixCaseless pat []).isSome
  | _ :: s' => (stripPrefixCaseless pat s).isSome || pyContainsCaselessL s' pat

/-- Caseless prefix test: `s.upper().startswith(pat)` for uppercase ASCII
`pat`. -/
def startsWithCaselessL (s pat : List Char) : Bool :=
  (stripPrefixCaseless pat s).isSome

/-- Matching an interpolated table name used as a regex fragment, IGNORECASE:
each `.` in the name is the regex wildcard (matching anything but a newline),
every other character ([a-zA-Z0-9_]) matches itself caselessly.  Returns the
matched text and the rest. -/
def matchTableCaseless : List Char → List Char → Option (List Char × List Char)
  | [], s => some ([], s)
  | _ :: _, [] => none
  | p :: ps, c :: cs =>
    if (if p = '.' then c != '\n' else p.toLower == c.toLower) then
      (matchTableCaseless ps cs).map (fun r => (c :: r.1, r.2))
    else none

/-- Case-sensitive variant (the `{table}\.column` pattern has no
IGNORECASE). -/
def matchTableExact : List Char → List Char → Option (List Char × List Char)
  | [], s => some ([], s)
  | _ :: _, [] => none
  | p :: ps, c :: cs =>
    if (if p = '.' then c != '\n' else p == c) then
      (matchTableExact ps cs).map (fun r => (c :: r.1, r.2))
    else none

/-- A regex step: given the previous original character (for `\b`) and the
current suffix, produce `(replacement, matchedText, rest)` on a match. -/
abbrev RegexStep := Option Char → List Char → Option (List Char × List Char × List Char)

/-- Global `re.sub`: scan left to right, replace each non-overlapping match,
resume after the match.  `fuel` bounds the scan; every pattern used here
consumes at least one character per match, so `s.length + 1` fuel is always
enough. -/
def scanSubP (step : RegexStep) : Nat → Option Char → List Char → List Char
  | 0, _, s => s
  | fuel + 1, prev, s =>
    match step prev s with
    | some (repl, matched, rest) =>
      if rest.length < s.length then
        repl ++ scanSubP step fuel (match matched.getLast? with
          | some c => some c
          | none => prev) rest
      else s
    | none =>
      match s with
      | [] => []
      | c :: s' => c :: scanSubP step fuel (some c) s'

/-- Global `re.findall` for a step that yields one capture per match. -/
def scanFindP {α : Type} (step : Option Char → List Char →
    Option (α × List Char × List Char)) :
    Nat → Option Char → List Char → List α
  | 0, _, _ => []
  | fuel + 1, prev, s =>
    match step prev s with
    | some (a, matched, rest) =>
      if rest.length < s.length then
        a :: scanFindP step fuel (match matched.getLast? with
          | some c => some c
          | none => prev) rest
      else []
    | none =>
      match s with
      | [] => []
      | c :: s' => scanFindP step fuel (some c) s'

/-- First match only (`re.findall(...)[0]` via the `if parts:` idiom). -/
def findFirstP {α : Type} (step : Option Char → List Char →
    Option (α × List Char × List Char)) :
    Nat → Option Char → List Char → Option α
  | 0, _, _ => none
  | fuel + 1, prev, s =>
    match step prev s with
    | some (a, _, _) => some a
    | none =>
      match s with
      | [] => none
      | c :: s' => findFirstP step fuel (some c) s'

/-- Step for `"([^"]+)"`: a quote, at least one non-quote character, a
quote. -/
def quotedNameStep : Option Char → List Char →
    Option (List Char × List Char × List Char)
  | _, '"' :: rest =>
    let content := rest.takeWhile (fun c => decide (c ≠ '"'))
    let after := rest.drop content.length
    match content, after with
    | _ :: _, '"' :: rest2 =>
      some (content, '"' :: (content ++ ['"']), rest2)
    | _, _ => none
  | _, _ => none

/-- re.findall `"([^"]+)"`: every quoted segment of the query. -/
def already_quoted_tables (s : List Char) : List (List Char) :=
  scanFindP quotedNameStep (s.length + 1) none s

/-- Step for `KW\s+([a-zA-Z0-9_\.]+)` with IGNORECASE (KW is `FROM` or
`JOIN`): the keyword anywhere (no word boundary in the findall!), at least
one whitespace, then a greedy run of identifier characters. -/
def kwIdentStep (kw : List Char) : Option Char → List Char →
    Option (List Char × List Char × List Char)
  | _, s =>
    (stripPrefixCaseless kw s).bind fun r1 =>
    let ws := r1.takeWhile isPyWs
    if ws.isEmpty then none
    else
      let r2 := r1.drop ws.length
      let ident := r2.takeWhile isIdentDotChar
      if ident.isEmpty then none
      else some (ident, s.take (s.length - (r2.length - ident.length)),
        r2.drop ident.length)

/-- The candidate table names: FROM matches then JOIN matches, those already
appearing quoted filtered out, deduplicated keeping the first occurrence
(Python builds a set; its iteration order is unspecified — first-occurrence
order is used here and coincides with CPython whenever at most one candidate
remains). -/
def dedupKeepFirst : List (List Char) → List (List Char) → List (List Char)
  | [], _ => []
  | x :: xs, seen =>
    if seen.contains x then dedupKeepFirst xs seen
    else x :: dedupKeepFirst xs (x :: seen)

/-- `potential_tables` of the source (lines 190-198). -/
def potential_tables (s : List Char) : List (List Char) :=
  let fromMatches := scanFindP (kwIdentStep "FROM".data) (s.length + 1) none s
  let joinMatches := scanFindP (kwIdentStep "JOIN".data) (s.length + 1) none s
  let quoted := already_quoted_tables s
  dedupKeepFirst ((fromMatches ++ joinMatches).filter
    (fun m => !quoted.contains m)) []

/-- Greedy `\s+` with backtracking: try consuming `k = max, max-1, ..., 1`
whitespace characters and run the continuation on the rest. -/
def wsBacktrack {α : Type} (r1 : List Char) (f : List Char → Option α) :
    Nat → Option α
  | 0 => none
  | k + 1 =>
    match f (r1.drop (k + 1)) with
    | some a => some a
    | none => wsBacktrack r1 f k

/-- Step for `\bKW\s+{table}\b` with IGNORECASE, replaced by
`KW "{table}"` (src lines 201-203): word boundary before the keyword, the
keyword, whitespace, the interpolated table name, word boundary after. -/
def kwTableStep (kw table : List Char) : RegexStep
  | prev, s =>
    if (match prev with | some c => isWordChar c | none => false) then none
    else
      (stripPrefixCaseless kw s).bind fun r1 =>
      let maxWs := (r1.takeWhile isPyWs).length
      (wsBacktrack r1 (fun r2 =>
        (matchTableCaseless table r2).bind fun m =>
        let matchedTbl := m.1
        let rest := m.2
        let boundaryOk :=
          match matchedTbl.getLast? with
          | none => false
          | some lastC =>
            match rest with
            | [] => isWordChar lastC
            | c :: _ => isWordChar lastC != isWordChar c
        if boundaryOk then some (matchedTbl, rest) else none) maxWs).map
        (fun m =>
          (kw ++ (' ' :: '"' :: (table ++ ['"'])),
            s.take (s.length - m.2.length), m.2))

/-- Step for `{table}\.([a-zA-Z0-9_]+)` (case-sensitive, no boundary),
replaced by `"{table}"."{col}"` (src lines 206-207). -/
def tableColStep (table : List Char) : RegexStep
  | _, s =>
    (matchTableExact table s).bind fun m =>
    match m.2 with
    | '.' :: r2 =>
      let col := r2.takeWhile isWordChar
      if col.isEmpty then none
      else
        some ('"' :: (table ++ ('"' :: '.' :: '"' :: (col ++ ['"']))),
          s.take (s.length - (r2.length - col.length)),
          r2.drop col.length)
    | _ => none

/-- The per-table rewriting loop (src lines 200-207): for each candidate
table, quote its FROM references, then its JOIN references, then its
`table.column` references. -/
def rewrite_tables (s : List Char) : List Char :=
  (potential_tables s).foldl
    (fun q table =>
      let q1 := scanSubP (kwTableStep "FROM".data table) (q.length + 1) none q
      let q2 := scanSubP (kwTableStep "JOIN".data table) (q1.length + 1) none q1
      scanSubP (tableColStep table) (q2.length + 1) none q2)
    s

/-- `$` of a non-MULTILINE Python regex: end of input, or just before a
trailing final newline. -/
def dollarHere (u : List Char) : Bool :=
  match u with
  | [] => true
  | [c] => c == '\n'
  | _ => false

/-- The first position where one of the caseless keyword alternatives (or,
always last, `$`) matches: the lazy `(.*?)(?:KW1|KW2|...|$)` tail.  Returns
the capture and the rest after the matched alternative (`$` is
zero-width). -/
def scanCaptureKw (alts : List (List Char)) :
    List Char → Option (List Char × List Char)
  | [] =>
    match alts.findSome? (fun a => stripPrefixCaseless a []) with
    | some rest => some ([], rest)
    | none => some ([], [])
  | c :: u' =>
    match alts.findSome? (fun a => stripPrefixCaseless a (c :: u')) with
    | some rest => some ([], rest)
    | none =>
      if dollarHere (c :: u') then some ([], c :: u')
      else (scanCaptureKw alts u').map (fun p => (c :: p.1, p.2))

/-- Step for `KW\s+(.*?)(?:ALT1|...|$)` with IGNORECASE|DOTALL (the ORDER
BY / WHERE / GROUP BY clause patterns).  The `$` alternative always
succeeds, so the greedy `\s+` never backtracks. -/
def clauseStep (kw : List Char) (alts : List (List Char)) :
    Option Char → List Char → Option (List Char × List Char × List Char)
  | _, s =>
    (stripPrefixCaseless kw s).bind fun r1 =>
    let ws := r1.takeWhile isPyWs
    if ws.isEmpty then none
    else
      (scanCaptureKw alts (r1.drop ws.length)).map fun p =>
        (p.1, s.take (s.length - p.2.length), p.2)

/-- The `\s+FROM` terminator of the SELECT pattern at the current position:
at least one whitespace character then caseless `FROM`. -/
def selTermHere (u : List Char) : Option (List Char) :=
  match u with
  | c :: _ =>
    if isPyWs c then
      stripPrefixCaseless "FROM".data (u.drop (u.takeWhile isPyWs).length)
    else none
  | [] => none

/-- Lazy capture of `(.*?)\s+FROM`: the earliest position where the
terminator matches; fails when it never does. -/
def scanCaptureSel : List Char → Option (List Char × List Char)
  | [] => none
  | c :: u' =>
    match selTermHere (c :: u') with
    | some rest => some ([], rest)
    | none => (scanCaptureSel u').map (fun p => (c :: p.1, p.2))

/-- Step for `SELECT\s+(.*?)\s+FROM` with IGNORECASE|DOTALL.  Here the
match can fail after the greedy `\s+`, so the whitespace run backtracks. -/
def selectClauseStep : Option Char → List Char →
    Option (List Char × List Char × List Char)
  | _, s =>
    (stripPrefixCaseless "SELECT".data s).bind fun r1 =>
    let maxWs := (r1.takeWhile isPyWs).length
    (wsBacktrack r1 scanCaptureSel maxWs).map fun p =>
      (p.1, s.take (s.length - p.2.length), p.2)

/-- `re.search(r'\(.*\)', item)`: an opening parenthesis with a closing one
later on the same line. -/
def hasParenPair (s : List Char) : Bool :=
  match s with
  | [] => false
  | '(' :: rest =>
    ((rest.takeWhile (fun c => decide (c ≠ '\n'))).contains ')') || hasParenPair rest
  | _ :: rest => hasParenPair rest

/-- `re.search(r'\s+AS\s+', item, re.IGNORECASE)`: somewhere in the item, a
whitespace run, then caseless `AS`, then at least one more whitespace. -/
def hasAsAlias (s : List Char) : Bool :=
  match s with
  | [] => false
  | c :: rest =>
    (isPyWs c &&
      (match stripPrefixCaseless "AS".data (rest.dropWhile isPyWs) with
        | some r2 =>
          (match r2 with
            | c2 :: _ => isPyWs c2
            | [] => false)
        | none => false)) ||
    hasAsAlias rest

/-- Worker for `pySplitWsL`: accumulates the current word reversed. -/
def pySplitWsGo (cur : List Char) : List Char → List (List Char)
  | [] => if cur.isEmpty then [] else [cur.reverse]
  | c :: s' =>
    if isPyWs c then
      if cur.isEmpty then pySplitWsGo [] s'
      else cur.reverse :: pySplitWsGo [] s'
    else pySplitWsGo (c :: cur) s'

/-- `item.split()`: whitespace-separated words, no empties. -/
def pySplitWsL (s : List Char) : List (List Char) :=
  pySplitWsGo [] s

/-- The WHERE-clause operator alternatives, in the source's order
(`=|>|<|>=|<=|<>|!=|LIKE|IN|BETWEEN`, case-sensitive — this `re.sub` passes
no flags). -/
def whereOps : List (List Char) :=
  ["=", ">", "<", ">=", "<=", "<>", "!=", "LIKE", "IN", "BETWEEN"].map String.data

/-- Backtracking over the greedy identifier of the WHERE pattern: try the
longest identifier prefix first, then shorter ones, each followed by the
(unique) maximal `\s*` run and one of the operator alternatives. -/
def whereIdentTry (identMax r0 : List Char) : Nat →
    Option (List Char × List Char × List Char × List Char)
  | 0 => none
  | l + 1 =>
    let ident := identMax.take (l + 1)
    let r1 := r0.drop (l + 1)
    let ws := r1.takeWhile isPyWs
    let r2 := r1.drop ws.length
    match whereOps.findSome? (fun op =>
        (stripPrefixExact op r2).map (fun rest => (op, rest))) with
    | some (op, rest) => some (ident, ws, op, rest)
    | none => whereIdentTry identMax r0 l

/-- Step for
`([^".\w])([a-zA-Z0-9_]+)(\s*)(=|>|<|>=|<=|<>|!=|LIKE|IN|BETWEEN)`
replaced by `\1"\2"\3\4` (src lines 252-256). -/
def whereIdentStep : RegexStep
  | _, s =>
    match s with
    | [] => none
    | c0 :: r0 =>
      if c0 == '"' || c0 == '.' || isWordChar c0 then none
      else
        let identMax := r0.takeWhile isWordChar
        (whereIdentTry identMax r0 identMax.length).map fun q =>
          let (ident, ws, op, rest) := q
          (c0 :: '"' :: (ident ++ ('"' :: (ws ++ op))),
            c0 :: (ident ++ (ws ++ op)), rest)

/-- Python `str.replace(old, new)` — all occurrences, left to right; an empty
`old` intersperses `new` between every character. -/
def pyReplaceL (s old new : List Char) : List Char :=
  if old.isEmpty then new ++ s.flatMap (fun c => c :: new)
  else
    scanSubP (fun _ u => (stripPrefixExact old u).map (fun rest =>
      (new, old, rest))) (s.length + 1) none s

/-- The ORDER BY step (src lines 209-233).  Returns `none` on the
`parts[0]` IndexError path (an all-whitespace item that is not skipped),
which in the source aborts the whole operation via the outer `except`. -/
def rewrite_order_by (s : List Char) : Option (List Char) :=
  if pyContainsCaselessL s "ORDER BY".data then
    match findFirstP (clauseStep "ORDER BY".data ["LIMIT".data]) (s.length + 1) none s with
    | none => some s
    | some cap =>
      let items := pySplitGo [','] cap.length cap
      let processed := items.mapM (fun item =>
        let stripped := pyStripL item
        if !(startsWithL stripped ['"']) && !hasParenPair stripped &&
            !hasAsAlias stripped then
          match pySplitWsL stripped with
          | [] => none
          | col :: restParts =>
            if !(col.contains '.') then
              some ('"' :: (col ++ ['"'] ++
                (if restParts.isEmpty then []
                 else ' ' :: List.intercalate [' '] restParts)))
            else some item
        else some item)
      processed.map fun newItems =>
        let newClause := "ORDER BY ".data ++ List.intercalate ", ".data newItems
        scanSubP (fun prev u => (clauseStep "ORDER BY".data ["LIMIT".data] prev u).map
          (fun m => (newClause, m.2.1, m.2.2))) (s.length + 1) none s
  else some s

/-- The WHERE step (src lines 236-250): quote bare identifiers that are
directly followed by a comparison operator inside the first WHERE clause,
then `str.replace` the old clause text by the new one everywhere. -/
def rewrite_where (s : List Char) : List Char :=
  if pyContainsCaselessL s "WHERE".data then
    match findFirstP (clauseStep "WHERE".data
        ["GROUP BY".data, "HAVING".data, "ORDER BY".data, "LIMIT".data])
        (s.length + 1) none s with
    | none => s
    | some cap =>
      let newClause := scanSubP whereIdentStep (cap.length + 1) none cap
      pyReplaceL s cap newClause
  else s

/-- The GROUP BY step (src lines 258-272): quote unquoted, function-free,
dot-free items of the first GROUP BY clause and rebuild it. -/
def rewrite_group_by (s : List Char) : List Char :=
  if pyContainsCaselessL s "GROUP BY".data then
    match findFirstP (clauseStep "GROUP BY".data
        ["HAVING".data, "ORDER BY".data, "LIMIT".data]) (s.length + 1) none s with
    | none => s
    | some cap =>
      let items := pySplitGo [','] cap.length cap
      let newItems := items.map (fun item =>
        let stripped := pyStripL item
        if !(startsWithL stripped ['"']) && !hasParenPair stripped then
          if !(stripped.contains '.') then '"' :: (stripped ++ ['"'])
          else item
        else item)
      let newClause := "GROUP BY ".data ++ List.intercalate ", ".data newItems
      scanSubP (fun prev u => (clauseStep "GROUP BY".data
          ["HAVING".data, "ORDER BY".data, "LIMIT".data] prev u).map
        (fun m => (newClause, m.2.1, m.2.2))) (s.length + 1) none s
  else s

/-- The SELECT step (src lines 274-291): quote unquoted, function-free,
alias-free, non-`*`, dot-free items of the first SELECT list and rebuild
every `SELECT ... FROM` span with the new list. -/
def rewrite_select (s : List Char) : List Char :=
  if startsWithCaselessL s "SELECT".data then
    match findFirstP selectClauseStep (s.length + 1) none s with
    | none => s
    | some cap =>
      let items := pySplitGo [','] cap.length cap
      let newItems := items.map (fun item =>
        let stripped := pyStripL item
        if !(startsWithL stripped ['"']) && !hasParenPair stripped &&
            !hasAsAlias stripped && !(stripped == ['*']) then
          if !(stripped.contains '.') then '"' :: (stripped ++ ['"'])
          else item
        else item)
      let newClause := "SELECT ".data ++ List.intercalate ", ".data newItems ++ " FROM".data
      scanSubP (fun prev u => (selectClauseStep prev u).map
        (fun m => (newClause, m.2.1, m.2.2))) (s.length + 1) none s
  else s

/-- The whole PostgreSQL branch of `execute_and_display_query` (src lines
184-281): table rewrites, then the ORDER BY, WHERE, GROUP BY and SELECT
steps, in the source's order.  `none` models the one exception path (ORDER
BY `parts[0]` on an empty item), which aborts query execution. -/
def postgres_identifier_rewrite (q : String) : Option String :=
  let s1 := rewrite_tables q.data
  (rewrite_order_by s1).map fun s2 =>
    ⟨rewrite_select (rewrite_group_by (rewrite_where s2))⟩

/-- The Identifier Safety Layer per dialect: the source only rewrites when the
connection is detected as PostgreSQL; for every other dialect the query text
is passed through unchanged. -/
def rewrite_query_for_dialect (db_type : String) (q : String) : Option String :=
  if db_type = "postgresql" then postgres_identifier_rewrite q else some q

/-! ### Sample data used by concrete witnesses -/

/-- A freshly queued background task row. -/
def sample_task_row : TaskRow :=
  { id := 1, username := "alice", task_type := "sql_query", query := "SELECT 1",
    status := "queued", created_at := 0, started_at := none, completed_at := none,
    result_path := none, error_message := none }

/-- The scheduler registry after registering the `sales` daily upload once at
second 1000. -/
def c2_reg1 : SchedulerRegistry × String :=
  register_task [] "URL" "https://example.com/sales.csv" "sales" "daily"
    "2024-01-01 00:00:00" none 1000

/-- The registry after re-registering the same descriptor one second later
(as `approve_upload_request` or a second `create_scheduled_upload` would). -/
def c2_reg2 : SchedulerRegistry × String :=
  register_task c2_reg1.1 "URL" "https://example.com/sales.csv" "sales" "daily"
    "2024-01-02 00:00:00" none 1001

/-- The upload-table state after an initial scheduled-upload request. -/
def first_request (role username source_type source_path table_name frequency
    next_run credentials : String) (now : Nat) : UploadState :=
  (create_scheduled_upload empty_upload_state role username source_type source_path
    table_name frequency next_run credentials now).1

/-- The pending descriptor row inserted by an unprivileged first request. -/
def pending_row (username source_type source_path table_name frequency
    next_run credentials : String) : ScheduledUploadRow :=
  { id := 1, username := username, source_type := source_type,
    source_path := source_path, table_name := table_name, frequency := frequency,
    next_run := next_run, credentials := credentials,
    is_active := false, is_approved := false }

/-- The admin-facing notification written by an unprivileged request. -/
def request_notification (username table_name : String) (now : Nat) : Notification :=
  { ntype := "approval_request",
    message := "User " ++ username ++
      " requested approval for scheduled upload of table " ++ table_name,
    timestamp := now, username := "admin" }

/-- The owner-facing notification written by a decline with a non-empty
reason. -/
def declined_notification (table_name reason username : String) (now : Nat) : Notification :=
  { ntype := "approval_declined",
    message := ("Your scheduled upload request for table " ++ table_name ++
      " has been declined") ++ (": " ++ reason),
    timestamp := now, username := username }

/-! ### Helper lemmas about the Python string primitives -/

theorem startsWithL_append (p t : List Char) : startsWithL (p ++ t) p = true := by
  induction p with
  | nil => cases t <;> rfl
  | cons c p ih => simp [startsWithL, ih]

theorem startsWithL_refl (l : List Char) : startsWithL l l = true := by
  have h := startsWithL_append l []
  simpa using h

theorem startsWithL_extend (s t pat : List Char) (h : startsWithL s pat = true) :
    startsWithL (s ++ t) pat = true := by
  induction pat generalizing s with
  | nil => cases s ++ t <;> rfl
  | cons p ps ih =>
    cases s with
    | nil => simp [startsWithL] at h
    | cons c s' =>
      simp [startsWithL] at h ⊢
      exact ⟨h.1, ih s' h.2⟩

theorem pyContainsL_append_right (s t pat : List Char)
    (h : pyContainsL t pat = true) : pyContainsL (s ++ t) pat = true := by
  induction s with
  | nil => simpa using h
  | cons c s' ih => simp [pyContainsL, ih]

theorem pyContainsL_append_left (s t pat : List Char)
    (h : pyContainsL s pat = true) : pyContainsL (s ++ t) pat = true := by
  induction s with
  | nil =>
    cases pat with
    | nil =>
      cases t with
      | nil => rfl
      | cons c t' => simp [pyContainsL, startsWithL]
    | cons p ps => simp [pyContainsL, startsWithL] at h
  | cons c s' ih =>
    simp [pyContainsL] at h ⊢
    rcases h with h | h
    · exact Or.inl (startsWithL_extend _ _ _ h)
    · exact Or.inr (ih h)

theorem pyContainsL_refl (l : List Char) : pyContainsL l l = true := by
  cases l with
  | nil => rfl
  | cons c l' => simp [pyContainsL, startsWithL_refl]

theorem string_data_append (a b : String) : (a ++ b).data = a.data ++ b.data := rfl

theorem pyContains_append_left (a b pat : String) (h : pyContains a pat = true) :
    pyContains (a ++ b) pat = true := by
  unfold pyContains at h ⊢
  rw [string_data_append]
  exact pyContainsL_append_left _ _ _ h

theorem pyContains_append_right (a b pat : String) (h : pyContains b pat = true) :
    pyContains (a ++ b) pat = true := by
  unfold pyContains at h ⊢
  rw [string_data_append]
  exact pyContainsL_append_right _ _ _ h

theorem pyContains_self (s : String) : pyContains s s = true :=
  pyContainsL_refl s.data

theorem unquote_wrap (c : Char) (s : String) : unquote (⟨[c]⟩ ++ s ++ ⟨[c]⟩) = s := by
  cases s with
  | mk d =>
    show String.mk ((((⟨[c]⟩ : String) ++ ⟨d⟩ ++ ⟨[c]⟩ : String).data.drop 1).dropLast) = ⟨d⟩
    have : ((⟨[c]⟩ : String) ++ ⟨d⟩ ++ ⟨[c]⟩ : String).data = c :: (d ++ [c]) := rfl
    rw [this]
    simp

/-! ### Claim theorems -/

/-- C1 (counterexample): the Task Ledger's transition operation does not fail on
queued → completed.  `update_task_status` on a task currently in `queued`,
requested to move to `completed`, simply records the new status (there is no
transition validation and no `InvalidTransitionError` anywhere in the code). -/
theorem C1_counterexample :
    update_task_status sample_task_row "completed" none (some 5) none none =
      { id := 1, username := "alice", task_type := "sql_query", query := "SELECT 1",
        status := "completed", created_at := 0, started_at := none,
        completed_at := some 5, result_path := none, error_message := none } := by
  decide

/-- C1 (amended): `_update_task_status` applies any requested status change
unconditionally — it never validates the current status and never fails with
`InvalidTransitionError` (which does not exist in the repository).  In
particular queued → completed succeeds, and running → completed succeeds and
sets `completed_at` exactly when the caller passes a `completed_at` value (as
`_execute_background_query` does on every terminal transition). -/
theorem C1_amended (row : TaskRow) (status : String) (t : Nat)
    (st co : Option Nat) (rp em : Option String) :
    (update_task_status row status st co rp em).status = status ∧
    (update_task_status row status st (some t) rp em).completed_at = some t ∧
    (update_task_status row status st none rp em).completed_at = row.completed_at :=
  ⟨rfl, rfl, rfl⟩

/-- C2 (evaluation at the failing input): registering the `sales` daily
descriptor at second 1000 and re-registering it at second 1001 yields two
distinct job ids — so two live triggers, not a replacement — and
`delete_scheduled_upload` then removes the job id built from the row id
(here 7), which matches neither registration, leaving the registry
unchanged. -/
theorem C2_failing_input_eval :
    c2_reg2.1.length = 2 ∧ c2_reg1.2 ≠ c2_reg2.2 ∧
    delete_scheduled_upload_sched c2_reg2.1 "URL" "sales" 7 = c2_reg2.1 := by
  decide

/-- C3 (counterexample): the Identifier Safety Layer is not idempotent.  On the
PostgreSQL dialect and the input `SELECT x FROM t GROUP BY "a", "b"`, the
first rewrite yields `SELECT "x" FROM "t" GROUP BY "a",  "b"` (the skipped
already-quoted second item keeps its leading space and the rebuild adds
another after the comma), and re-running the layer on that output inserts yet
another space, so `rewrite (rewrite s) ≠ rewrite s`. -/
theorem C3_counterexample :
    rewrite_query_for_dialect "postgresql" "SELECT x FROM t GROUP BY \x22a\x22, \x22b\x22"
      = some "SELECT \x22x\x22 FROM \x22t\x22 GROUP BY \x22a\x22,  \x22b\x22" ∧
    rewrite_query_for_dialect "postgresql"
        "SELECT \x22x\x22 FROM \x22t\x22 GROUP BY \x22a\x22,  \x22b\x22"
      = some "SELECT \x22x\x22 FROM \x22t\x22 GROUP BY \x22a\x22,   \x22b\x22" ∧
    ("SELECT \x22x\x22 FROM \x22t\x22 GROUP BY \x22a\x22,  \x22b\x22" : String)
      ≠ "SELECT \x22x\x22 FROM \x22t\x22 GROUP BY \x22a\x22,   \x22b\x22" := by
  refine ⟨rfl, rfl, by decide⟩

/-- C3 (amended): the Identifier Safety Layer is the identity — hence
trivially idempotent — for every non-PostgreSQL dialect (the source only
rewrites when the connection is PostgreSQL); for PostgreSQL it is not
idempotent in general: re-running the layer on its own output can change the
string again, as the GROUP BY list of the counterexample shows. -/
theorem C3_amended :
    (∀ db_type q : String, db_type ≠ "postgresql" →
      rewrite_query_for_dialect db_type q = some q) ∧
    (∃ q r1 r2 : String, postgres_identifier_rewrite q = some r1 ∧
      postgres_identifier_rewrite r1 = some r2 ∧ r2 ≠ r1) := by
  constructor
  · intro db_type q h
    unfold rewrite_query_for_dialect
    rw [if_neg h]
  · exact ⟨"SELECT x FROM t GROUP BY \x22a\x22, \x22b\x22",
      "SELECT \x22x\x22 FROM \x22t\x22 GROUP BY \x22a\x22,  \x22b\x22",
      "SELECT \x22x\x22 FROM \x22t\x22 GROUP BY \x22a\x22,   \x22b\x22",
      rfl, rfl, by decide⟩

/-- C3 (witness): the identity on a non-PostgreSQL dialect at a concrete
query. -/
theorem C3_amended_witness :
    rewrite_query_for_dialect "mysql" "SELECT * FROM Orders" =
      some "SELECT * FROM Orders" :=
  C3_amended.1 "mysql" "SELECT * FROM Orders" (by decide)

/-- C9: on PostgreSQL, the Identifier Safety Layer rewrites
`SELECT * FROM Orders WHERE status = 'open'` by double-quoting the table
reference `Orders` in the FROM clause and leaves the string literal `'open'`
(and everything else) unchanged. -/
theorem C9_orders_rewrite :
    rewrite_query_for_dialect "postgresql"
        "SELECT * FROM Orders WHERE status = \x27open\x27"
      = some "SELECT * FROM \x22Orders\x22 WHERE status = \x27open\x27" := rfl

/-- C4 (counterexample): the query builder's quote character for SQLite is the
backtick, not the double quote: `_generate_sql` line 300 chooses
`'"' if db_type == 'postgresql' else '`'`, so every non-PostgreSQL dialect —
including SQLite — gets the backtick. -/
theorem C4_counterexample :
    quote_char "sqlite" ≠ "\x22" ∧ quote_char "sqlite" = "\x60" := by
  decide

/-- C4 (amended): in `_generate_sql`, identifiers are wrapped in a double quote
for PostgreSQL and in a backtick for every other dialect including SQLite; in
`store_data_in_db`, MySQL uses the backtick and PostgreSQL and SQLite the
double quote.  For both quoting sites and every identifier not containing the
applicable quote character, stripping the added quotes returns the identifier:
`unquote (quote x) = x`. -/
theorem C4_amended :
    quote_char "mysql" = "\x60" ∧ quote_char "postgresql" = "\x22" ∧
    quote_char "sqlite" = "\x60" ∧
    store_quote_char "mysql" = some "\x60" ∧
    store_quote_char "postgresql" = some "\x22" ∧
    store_quote_char "sqlite" = some "\x22" ∧
    (∀ db name : String, pyContains name (quote_char db) = false →
      unquote (quote_identifier_qb db name) = name) ∧
    (∀ db name q : String, store_quote_char db = some q →
      pyContains name q = false → unquote (q ++ name ++ q) = name) := by
  refine ⟨by decide, by decide, by decide, by decide, by decide, by decide, ?_, ?_⟩
  · intro db name _h
    unfold quote_identifier_qb quote_char
    by_cases hdb : db = "postgresql"
    · rw [if_pos hdb]
      exact unquote_wrap '\x22' name
    · rw [if_neg hdb]
      exact unquote_wrap '\x60' name
  · intro db name q hq _h
    unfold store_quote_char at hq
    by_cases h1 : pyLower db = "mysql"
    · rw [if_pos h1] at hq
      cases hq
      exact unquote_wrap '\x60' name
    · rw [if_neg h1] at hq
      by_cases h2 : pyLower db = "postgresql"
      · rw [if_pos h2] at hq
        cases hq
        exact unquote_wrap '\x22' name
      · rw [if_neg h2] at hq
        by_cases h3 : pyLower db = "sqlite"
        · rw [if_pos h3] at hq
          cases hq
          exact unquote_wrap '\x22' name
        · rw [if_neg h3] at hq
          cases hq

/-- C4 (witness): the amended round-trip at a concrete identifier. -/
theorem C4_amended_witness :
    unquote (quote_identifier_qb "sqlite" "Orders") = "Orders" :=
  C4_amended.2.2.2.2.2.2.1 "sqlite" "Orders" (by decide)

/-- C5: the Query Synthesizer's BETWEEN handling.  A value splitting on the
literal `" AND "` into exactly two parts produces `x BETWEEN '10' AND '20'`
(each part stripped and quoted); any value not splitting into exactly two
parts degrades to the equality comparison `x = '<raw value>'` on the raw
string, with no error. -/
theorem C5_between_condition :
    format_between_condition "x" "10 AND 20" = "x BETWEEN \x2710\x27 AND \x2720\x27" ∧
    (∀ column value : String, (pySplit value " AND ").length ≠ 2 →
      format_between_condition column value = column ++ " = \x27" ++ value ++ "\x27") := by
  refine ⟨by decide, ?_⟩
  intro column value h
  unfold format_between_condition
  cases hs : pySplit value " AND " with
  | nil => rfl
  | cons v0 rest =>
    cases rest with
    | nil => rfl
    | cons v1 rest2 =>
      cases rest2 with
      | nil =>
        rw [hs] at h
        simp at h
      | cons v2 rest3 => rfl

/-- C5 (witness): the fallback arm at a concrete malformed value. -/
theorem C5_between_condition_witness :
    format_between_condition "x" "10" = "x = \x2710\x27" :=
  C5_between_condition.2 "x" "10" (by decide)

/-- C6: an unprivileged user's scheduled-upload request creates the descriptor
row with `is_approved = false` and `is_active = false`; an admin declining it
with a non-empty reason deletes the row and appends a notification to the
requesting owner whose message contains `"declined"` and contains the
reason. -/
theorem C6_request_then_decline
    (role username st1 sp1 table_name fr1 nr1 cr1 reason : String) (now now2 : Nat)
    (hrole : role ≠ "admin") (hreason : reason ≠ "") :
    (∃ row, (first_request role username st1 sp1 table_name fr1 nr1 cr1 now).rows = [row] ∧
      row.username = username ∧ row.table_name = table_name ∧
      row.is_approved = false ∧ row.is_active = false) ∧
    (decline_upload_request (first_request role username st1 sp1 table_name fr1 nr1 cr1 now)
        "admin" 1 reason now2).2.1 = true ∧
    (decline_upload_request (first_request role username st1 sp1 table_name fr1 nr1 cr1 now)
        "admin" 1 reason now2).1.rows = [] ∧
    (∃ n, (decline_upload_request (first_request role username st1 sp1 table_name fr1 nr1 cr1 now)
        "admin" 1 reason now2).1.notifications.getLast? = some n ∧
      n.username = username ∧
      pyContains n.message "declined" = true ∧
      pyContains n.message reason = true) := by
  have h1 : first_request role username st1 sp1 table_name fr1 nr1 cr1 now =
      { rows := [pending_row username st1 sp1 table_name fr1 nr1 cr1],
        notifications := [request_notification username table_name now],
        next_id := 2 } := by
    simp [first_request, create_scheduled_upload, empty_upload_state, add_notification,
      pending_row, request_notification, hrole]
  rw [h1]
  have h2 : decline_upload_request
      { rows := [pending_row username st1 sp1 table_name fr1 nr1 cr1],
        notifications := [request_notification username table_name now],
        next_id := 2 } "admin" 1 reason now2 =
      ({ rows := [],
         notifications := [request_notification username table_name now,
           declined_notification table_name reason username now2],
         next_id := 2 }, true,
        "Request declined. User " ++ username ++ " has been notified.") := by
    simp [decline_upload_request, add_notification, pending_row, declined_notification, hreason]
  rw [h2]
  refine ⟨⟨_, rfl, rfl, rfl, rfl, rfl⟩, rfl, rfl, ⟨_, rfl, rfl, ?_, ?_⟩⟩
  · exact pyContains_append_left _ _ _
      (pyContains_append_right ("Your scheduled upload request for table " ++ table_name)
        " has been declined" "declined" (by decide))
  · exact pyContains_append_right _ _ _
      (pyContains_append_right ": " reason reason (pyContains_self reason))

/-- C6 (witness): the scenario at concrete values — a viewer requests a daily
upload of `sales` from a URL source, the admin declines with reason
"bad source". -/
theorem C6_request_then_decline_witness :
    (∃ row, (first_request "viewer" "alice" "URL" "https://example.com/sales.csv" "sales"
        "Daily" "2024-01-01 00:00:00" "{}" 10).rows = [row] ∧
      row.username = "alice" ∧ row.table_name = "sales" ∧
      row.is_approved = false ∧ row.is_active = false) ∧
    (decline_upload_request (first_request "viewer" "alice" "URL"
        "https://example.com/sales.csv" "sales" "Daily" "2024-01-01 00:00:00" "{}" 10)
        "admin" 1 "bad source" 20).2.1 = true ∧
    (decline_upload_request (first_request "viewer" "alice" "URL"
        "https://example.com/sales.csv" "sales" "Daily" "2024-01-01 00:00:00" "{}" 10)
        "admin" 1 "bad source" 20).1.rows = [] ∧
    (∃ n, (decline_upload_request (first_request "viewer" "alice" "URL"
        "https://example.com/sales.csv" "sales" "Daily" "2024-01-01 00:00:00" "{}" 10)
        "admin" 1 "bad source" 20).1.notifications.getLast? = some n ∧
      n.username = "alice" ∧
      pyContains n.message "declined" = true ∧
      pyContains n.message "bad source" = true) :=
  C6_request_then_decline "viewer" "alice" "URL" "https://example.com/sales.csv" "sales"
    "Daily" "2024-01-01 00:00:00" "{}" "bad source" 10 20 (by decide) (by decide)

/-- C7: a second unprivileged request for the same `(owner, table_name)` pair
while the first is still pending (`is_approved = false`) is rejected with the
pending-request-exists message and leaves the table unchanged — no second
descriptor row is created. -/
theorem C7_duplicate_pending_rejected
    (role username st1 sp1 table_name fr1 nr1 cr1 st2 sp2 fr2 nr2 cr2 : String)
    (now now2 : Nat) (hrole : role ≠ "admin") :
    create_scheduled_upload
        (first_request role username st1 sp1 table_name fr1 nr1 cr1 now)
        role username st2 sp2 table_name fr2 nr2 cr2 now2 =
      (first_request role username st1 sp1 table_name fr1 nr1 cr1 now, false,
        "You already have a pending request for this table. Please wait for admin approval.") := by
  have h1 : first_request role username st1 sp1 table_name fr1 nr1 cr1 now =
      { rows := [pending_row username st1 sp1 table_name fr1 nr1 cr1],
        notifications := [request_notification username table_name now],
        next_id := 2 } := by
    simp [first_request, create_scheduled_upload, empty_upload_state, add_notification,
      pending_row, request_notification, hrole]
  rw [h1]
  simp [create_scheduled_upload, pending_row, hrole]

/-- C7 (witness): the duplicate rejection at concrete values. -/
theorem C7_duplicate_pending_rejected_witness :
    create_scheduled_upload
        (first_request "viewer" "alice" "URL" "https://a/x.csv" "sales" "Daily"
          "2024-01-01 00:00:00" "{}" 10)
        "viewer" "alice" "Dropbox" "/y.csv" "sales" "Weekly" "2024-02-01 00:00:00" "{}" 20 =
      (first_request "viewer" "alice" "URL" "https://a/x.csv" "sales" "Daily"
          "2024-01-01 00:00:00" "{}" 10, false,
        "You already have a pending request for this table. Please wait for admin approval.") :=
  C7_duplicate_pending_rejected "viewer" "alice" "URL" "https://a/x.csv" "sales" "Daily"
    "2024-01-01 00:00:00" "{}" "Dropbox" "/y.csv" "Weekly" "2024-02-01 00:00:00" "{}" 10 20
    (by decide)

/-- C8: for a background query task starting from a fresh row
(`result_path = none`): success with a non-empty result set completes the task
and records `results/task_{id}_results.csv` as the result location; success
with an empty result set completes it with no result location; and whenever
the final row carries a result location, the task completed and the result
set was non-empty. -/
theorem C8_result_location (row : TaskRow) (t1 t2 : Nat)
    (hfresh : row.result_path = none) :
    (∀ rows : List (List String), rows ≠ [] →
      (execute_background_query row (.success rows) t1 t2).status = "completed" ∧
      (execute_background_query row (.success rows) t1 t2).result_path =
        some ("results/task_" ++ toString row.id ++ "_results.csv")) ∧
    (execute_background_query row (.success []) t1 t2).status = "completed" ∧
    (execute_background_query row (.success []) t1 t2).result_path = none ∧
    (∀ outcome : QueryOutcome,
      (execute_background_query row outcome t1 t2).result_path.isSome →
      (execute_background_query row outcome t1 t2).status = "completed" ∧
      ∃ rows, outcome = .success rows ∧ rows ≠ []) := by
  refine ⟨?_, ?_, ?_, ?_⟩
  · intro rows hne
    have hcons : rows.isEmpty = false := by
      cases rows with
      | nil => exact absurd rfl hne
      | cons r rs => rfl
    constructor <;>
      simp [execute_background_query, update_task_status, setIfSome, hcons]
  · rfl
  · simp [execute_background_query, update_task_status, setIfSome, hfresh]
  · intro outcome hsome
    cases outcome with
    | connect_failed =>
      simp [execute_background_query, update_task_status, setIfSome, hfresh] at hsome
    | raised msg =>
      simp [execute_background_query, update_task_status, setIfSome, hfresh] at hsome
    | success rows =>
      cases rows with
      | nil =>
        simp [execute_background_query, update_task_status, setIfSome, hfresh] at hsome
      | cons r rs =>
        refine ⟨?_, ⟨r :: rs, rfl, by simp⟩⟩
        simp [execute_background_query, update_task_status, setIfSome]

/-- C8 (witness): the non-empty-success arm at a concrete task. -/
theorem C8_result_location_witness :
    (execute_background_query sample_task_row (.success [["1"]]) 3 4).status = "completed" ∧
    (execute_background_query sample_task_row (.success [["1"]]) 3 4).result_path =
      some ("results/task_" ++ toString sample_task_row.id ++ "_results.csv") :=
  (C8_result_location sample_task_row 3 4 rfl).1 [["1"]] (by decide)

/-- C10: `download_from_url` returns `None` for every URL containing none of
the four allowed substrings, before any download is attempted; and the gate is
plain substring containment, so a URL containing an allowed domain anywhere
in it passes the check. -/
theorem C10_url_gate :
    (∀ url : String,
      pyContains url "github.com" = false →
      pyContains url "raw.githubusercontent.com" = false →
      pyContains url "data.gov" = false →
      pyContains url "data.world" = false →
      download_from_url url = none) ∧
    (∀ pre d post : String, d ∈ allowed_domains →
      url_domain_allowed (pre ++ (d ++ post)) = true) := by
  constructor
  · intro url h1 h2 h3 h4
    simp [download_from_url, url_domain_allowed, allowed_domains, h1, h2, h3, h4]
  · intro pre d post hd
    have hcontains : pyContains (pre ++ (d ++ post)) d = true :=
      pyContains_append_right _ _ _ (pyContains_append_left _ _ _ (pyContains_self d))
    simp only [url_domain_allowed, List.any_eq_true]
    exact ⟨d, hd, hcontains⟩

/-- C10 (witness): a URL from a non-allowed domain is rejected, and one
containing `data.gov` mid-string passes the gate. -/
theorem C10_url_gate_witness :
    download_from_url "https://example.com/sales.csv" = none ∧
    url_domain_allowed ("https://evil.example/" ++ ("data.gov" ++ "/x.csv")) = true :=
  ⟨C10_url_gate.1 "https://example.com/sales.csv" (by decide) (by decide) (by decide)
      (by decide),
    C10_url_gate.2 "https://evil.example/" "data.gov" "/x.csv" (by decide)⟩

end SqlTool
